import Mathlib

/-!
Verification development for the libBar BMP280 driver
(src/libBar/bmp280.py).  The Python module is shallowly embedded:

* machine bytes and register addresses are `Nat`;
* the floating-point compensation arithmetic is modelled over `ℚ`
  (the claims under scrutiny concern the algebraic formulas and data
  flow, not IEEE rounding);
* the register transport is an oracle `Dev : Nat → Nat` giving the byte
  a read of each register returns; writes are captured either in a
  register file `Regs : Nat → Nat` or in an explicit event trace;
* fallible transport (for the initialization/resource claims) is
  modelled with `Except`, together with an explicit count of open bus
  handles.
-/

/-! ### Register constants, bmp280.py lines 58-71 -/

def reg_ID : Nat := 0xD0
def reg_RESET : Nat := 0xE0
def reg_STATUS : Nat := 0xF3
def reg_CTRLMEAS : Nat := 0xF4
def reg_CONFIG : Nat := 0xF5
def reg_PRESS0 : Nat := 0xF7
def reg_PRESS1 : Nat := 0xF8
def reg_PRESS2 : Nat := 0xF9
def reg_TEMP0 : Nat := 0xFA
def reg_TEMP1 : Nat := 0xFB
def reg_TEMP2 : Nat := 0xFC

/-! ### Configuration constants, bmp280.py lines 20-56 -/

def cfg_PWRSLP : Nat := 0b00
def cfg_PWRFOR : Nat := 0b01
def cfg_PWRNRM : Nat := 0b11

def cfg_TSBhalf : Nat := 0b000
def cfg_TSB125 : Nat := 0b010
def cfg_TSB4000 : Nat := 0b111

def cfg_OSSPSKP : Nat := 0b000
def cfg_OSSP1 : Nat := 0b001
def cfg_OSSP2 : Nat := 0b010
def cfg_OSSP16 : Nat := 0b101

def cfg_OSSTSKP : Nat := 0b000
def cfg_OSST1 : Nat := 0b001
def cfg_OSST4 : Nat := 0b011

def cfg_FLTROFF : Nat := 0b000
def cfg_FLTR2 : Nat := 0b001

/-! ### The device context, bmp280.py lines 83-110

The Python context is a dict; its fixed key set becomes a structure.
`trim.dig_T` and `trim.dig_P` are Python lists with index 0 unused
(`None`); the used slots become the fields `dig_T1..dig_T3` and
`dig_P1..dig_P9`.  They carry `ℚ` because they are consumed only by the
rational compensation arithmetic. -/

structure Ctx where
  port : Nat
  addr : Nat
  mode : Nat
  prss : Nat
  temp : Nat
  sByT : Nat
  fltr : Nat
  t_fine : ℚ
  dig_T1 : ℚ
  dig_T2 : ℚ
  dig_T3 : ℚ
  dig_P1 : ℚ
  dig_P2 : ℚ
  dig_P3 : ℚ
  dig_P4 : ℚ
  dig_P5 : ℚ
  dig_P6 : ℚ
  dig_P7 : ℚ
  dig_P8 : ℚ
  dig_P9 : ℚ
deriving DecidableEq

/-- A read-oracle for the device: the byte a register read returns. -/
def Dev : Type := Nat → Nat

/-- One register-transport transaction, as observed on the bus.
Read events record the register only (the returned byte is given by the
`Dev` oracle). -/
inductive Event where
  | read (reg : Nat)
  | write (reg : Nat) (val : Nat)
deriving DecidableEq

/-- `rawGet` (bmp280.py lines 371-384) as a traced read: returns the
device byte and appends a read event. -/
def rawGetT (dev : Dev) (reg : Nat) (tr : List Event) : Nat × List Event :=
  (dev reg, tr ++ [Event.read reg])

/-- The nested closure `_getTrim(LSB, MSB)` of `createContext`
(bmp280.py lines 119-120): reads MSB first (Python evaluates
`rawGet(ctx, MSB) << 8` before `rawGet(ctx, LSB)`), assembles
`(high <<< 8) ||| low`. -/
def _getTrim (dev : Dev) (LSB MSB : Nat) (tr : List Event) : Nat × List Event :=
  let m := rawGetT dev MSB tr
  let l := rawGetT dev LSB m.2
  ((m.1 <<< 8) ||| l.1, l.2)

/-- `createContext` (bmp280.py lines 74-140), infallible-transport view:
builds the context from the read oracle and returns the full trace of
register transactions it performs (trim reads, then the soft reset
write, then the two initial configuration writes).  The bus-level
open/ioctl steps are not register transactions and are modelled in
`createContextF` below. -/
def createContext (dev : Dev) (vco : Bool) : Ctx × List Event :=
  let t1 := _getTrim dev 0x88 0x89 []
  let t2 := _getTrim dev 0x8A 0x8B t1.2
  let t3 := _getTrim dev 0x8C 0x8D t2.2
  let p1 := _getTrim dev 0x8E 0x8F t3.2
  let p2 := _getTrim dev 0x90 0x91 p1.2
  let p3 := _getTrim dev 0x92 0x93 p2.2
  let p4 := _getTrim dev 0x94 0x95 p3.2
  let p5 := _getTrim dev 0x96 0x97 p4.2
  let p6 := _getTrim dev 0x98 0x99 p5.2
  let p7 := _getTrim dev 0x9A 0x9B p6.2
  let p8 := _getTrim dev 0x9C 0x9D p7.2
  let p9 := _getTrim dev 0x9E 0x9F p8.2
  let tr := p9.2 ++ [Event.write reg_RESET 0xB6]
  let tr := tr ++ [Event.write reg_CTRLMEAS
    ((cfg_OSSTSKP <<< 5) ||| (cfg_OSSPSKP <<< 2) ||| cfg_PWRNRM)]
  let tr := tr ++ [Event.write reg_CONFIG
    ((cfg_TSB125 <<< 5) ||| (cfg_FLTR2 <<< 2) ||| 0)]
  ({ port := 2
     addr := if vco then 0x77 else 0x76
     mode := cfg_PWRNRM
     prss := cfg_OSSPSKP
     temp := cfg_OSSTSKP
     sByT := cfg_TSB125
     fltr := cfg_FLTR2
     t_fine := 0
     dig_T1 := (t1.1 : ℚ)
     dig_T2 := (t2.1 : ℚ)
     dig_T3 := (t3.1 : ℚ)
     dig_P1 := (p1.1 : ℚ)
     dig_P2 := (p2.1 : ℚ)
     dig_P3 := (p3.1 : ℚ)
     dig_P4 := (p4.1 : ℚ)
     dig_P5 := (p5.1 : ℚ)
     dig_P6 := (p6.1 : ℚ)
     dig_P7 := (p7.1 : ℚ)
     dig_P8 := (p8.1 : ℚ)
     dig_P9 := (p9.1 : ℚ) }, tr)

/-- `getTemperature` (bmp280.py lines 153-174): assembles the 20-bit raw
value from the three temperature registers, applies the two-term
polynomial, stores `t_fine` into the context and returns
`t_fine / 5120.0`. -/
def getTemperature (ctx : Ctx) (dev : Dev) : ℚ × Ctx :=
  let _msb := dev reg_TEMP0
  let _lsb := dev reg_TEMP1
  let _xlsb := dev reg_TEMP2
  let adc_T : Nat := (_msb <<< 12) ||| (_lsb <<< 4) ||| _xlsb
  let var1 : ℚ := ((adc_T : ℚ) / 16384 - ctx.dig_T1 / 1024) * ctx.dig_T2
  let var2 : ℚ := ((adc_T : ℚ) / 131072 - ctx.dig_T1 / 8192) *
                  ((adc_T : ℚ) / 131072 - ctx.dig_T1 / 8192) * ctx.dig_T3
  let tf := var1 + var2
  (tf / 5120, { ctx with t_fine := tf })

/-- The value held by the variable `var1` of `getPressure` at the
division guard (bmp280.py lines 195-201): the code overwrites `var1`
twice, and the value tested by `if var1 == 0.0` depends only on the
context, not on the raw ADC reading. -/
def pVar1 (ctx : Ctx) : ℚ :=
  let var1 : ℚ := ctx.t_fine / 2 - 64000
  let var1b : ℚ := (ctx.dig_P3 * var1 * var1 / 524288 + ctx.dig_P2 * var1) / 524288
  (1 + var1b / 32768) * ctx.dig_P1

/-- `getPressure` (bmp280.py lines 177-208): assembles the 20-bit raw
value from the three pressure registers and applies the datasheet
rational polynomial, guarding the division by `var1` (= `pVar1 ctx`)
with an early return of `0`. -/
def getPressure (ctx : Ctx) (dev : Dev) : ℚ :=
  let _msb := dev reg_PRESS0
  let _lsb := dev reg_PRESS1
  let _xlsb := dev reg_PRESS2
  let adc_P : Nat := (_msb <<< 12) ||| (_lsb <<< 4) ||| _xlsb
  let var1 : ℚ := ctx.t_fine / 2 - 64000
  let var2 : ℚ := var1 * var1 * ctx.dig_P6 / 32768
  let var2 : ℚ := var2 + var1 * ctx.dig_P5 * 2
  let var2 : ℚ := var2 / 4 + ctx.dig_P4 * 65536
  if pVar1 ctx = 0 then 0
  else
    let p : ℚ := 1048576 - (adc_P : ℚ)
    let p : ℚ := (p - var2 / 4096) * 6250 / pVar1 ctx
    let v1 : ℚ := ctx.dig_P9 * p * p / 2147483648
    let v2 : ℚ := p * ctx.dig_P8 / 32768
    p + (v1 + v2 + ctx.dig_P7) / 16

/-! ### Configuration setters, bmp280.py lines 219-315

Writes of the two composite configuration registers are observed in a
register file `Regs`.  `_setConfig` can fail (the Python `ValueError`),
so it returns `Except`; each public setter wraps it in
`try: ... except Exception as e: print(e)`, which catches every
exception — the setters therefore return plainly, with no error
channel, and leave both the context and the register file untouched on
failure. -/

def Regs : Type := Nat → Nat

/-- `rawSet` (bmp280.py lines 356-368) acting on the register file. -/
def rawSetR (regs : Regs) (reg val : Nat) : Regs :=
  fun r => if r = reg then val else regs r

/-- The `lim` table (renamed: `lim` collides with Mathlib) of `_setConfig` (bmp280.py lines 307-311).  Slots 0
and 1 are the unusable `[None]` placeholders of the source (never
indexed by any caller); slots 2 and 3 carry the bounds actually used. -/
def limTable : List (List Nat) := [[], [], [0b00, 0b11], [0b000, 0b111]]

/-- `_setConfig` (bmp280.py lines 297-315): checks
`lim[bit][0] <= val <= lim[bit][1]` — note that `val` here is the FULL
composite register value handed over by the setter, not the new field
value — and on success writes it to the config or control-measurement
register.  Out of range raises `ValueError`, modelled as
`Except.error`. -/
def _setConfig (regs : Regs) (bit : Nat) (cfg : Bool) (val : Nat) : Except Unit Regs :=
  if ((limTable.getD bit []).getD 0 0) ≤ val ∧ val ≤ ((limTable.getD bit []).getD 1 0) then
    Except.ok (rawSetR regs (if cfg then reg_CONFIG else reg_CTRLMEAS) val)
  else Except.error ()

/-- `setMode` (bmp280.py lines 219-233).  The `try/except/print` of the
source swallows any exception, so the function always returns plainly;
on failure context and registers are unchanged.  No field of `ctx` is
ever updated. -/
def setMode (ctx : Ctx) (regs : Regs) (val : Nat) : Ctx × Regs :=
  match _setConfig regs 2 false ((ctx.temp <<< 5) ||| (ctx.prss <<< 2) ||| val) with
  | Except.ok r => (ctx, r)
  | Except.error _ => (ctx, regs)

/-- `setOverSampPressure` (bmp280.py lines 235-248). -/
def setOverSampPressure (ctx : Ctx) (regs : Regs) (val : Nat) : Ctx × Regs :=
  match _setConfig regs 3 false ((ctx.temp <<< 5) ||| (val <<< 2) ||| ctx.mode) with
  | Except.ok r => (ctx, r)
  | Except.error _ => (ctx, regs)

/-- `setOverSampTemperature` (bmp280.py lines 251-264). -/
def setOverSampTemperature (ctx : Ctx) (regs : Regs) (val : Nat) : Ctx × Regs :=
  match _setConfig regs 3 false ((val <<< 5) ||| (ctx.prss <<< 2) ||| ctx.mode) with
  | Except.ok r => (ctx, r)
  | Except.error _ => (ctx, regs)

/-- `setStandByTime` (bmp280.py lines 267-279). -/
def setStandByTime (ctx : Ctx) (regs : Regs) (val : Nat) : Ctx × Regs :=
  match _setConfig regs 3 true ((val <<< 5) ||| (ctx.fltr <<< 2) ||| 0) with
  | Except.ok r => (ctx, r)
  | Except.error _ => (ctx, regs)

/-- `setFilter` (bmp280.py lines 282-294). -/
def setFilter (ctx : Ctx) (regs : Regs) (val : Nat) : Ctx × Regs :=
  match _setConfig regs 3 true ((ctx.sByT <<< 5) ||| (val <<< 2) ||| 0) with
  | Except.ok r => (ctx, r)
  | Except.error _ => (ctx, regs)

/-! ### Fallible-transport view of context creation, bmp280.py lines 74-140

For the resource-discipline claim the bus is an oracle that says which
of the individual transport steps succeed.  `createContextF` returns
the outcome together with the number of bus handles still open when it
returns (the Python code opens `/dev/i2c-N` once and closes it only in
`purgeContext` — there is no close on any failure path). -/

structure Bus where
  openOk : Bool
  ioctlOk : Bool
  readOk : Nat → Bool
  dev : Dev
  writeOk : Nat → Nat → Bool

/-- `rawGet` over the fallible bus. -/
def rawGetF (bus : Bus) (reg : Nat) : Except Unit Nat :=
  if bus.readOk reg then Except.ok (bus.dev reg) else Except.error ()

/-- `rawSet` over the fallible bus. -/
def rawSetF (bus : Bus) (reg val : Nat) : Except Unit Unit :=
  if bus.writeOk reg val then Except.ok () else Except.error ()

/-- `_getTrim` over the fallible bus (MSB read first, as in the
source). -/
def _getTrimF (bus : Bus) (LSB MSB : Nat) : Except Unit Nat := do
  let m ← rawGetF bus MSB
  let l ← rawGetF bus LSB
  return (m <<< 8) ||| l

/-- `createContext` over the fallible bus.  The second component counts
open bus handles on return: `os.open` succeeding sets it to 1 and no
path closes the handle again — the `try/except` around open/ioctl
re-raises without closing, and the trim reads, reset and initial
configuration writes are outside any handler. -/
def createContextF (bus : Bus) (vco : Bool) : Except Unit Ctx × Nat :=
  if !bus.openOk then (Except.error (), 0)
  else if !bus.ioctlOk then (Except.error (), 1)
  else
    let body : Except Unit Ctx := do
      let t1 ← _getTrimF bus 0x88 0x89
      let t2 ← _getTrimF bus 0x8A 0x8B
      let t3 ← _getTrimF bus 0x8C 0x8D
      let p1 ← _getTrimF bus 0x8E 0x8F
      let p2 ← _getTrimF bus 0x90 0x91
      let p3 ← _getTrimF bus 0x92 0x93
      let p4 ← _getTrimF bus 0x94 0x95
      let p5 ← _getTrimF bus 0x96 0x97
      let p6 ← _getTrimF bus 0x98 0x99
      let p7 ← _getTrimF bus 0x9A 0x9B
      let p8 ← _getTrimF bus 0x9C 0x9D
      let p9 ← _getTrimF bus 0x9E 0x9F
      let _ ← rawSetF bus reg_RESET 0xB6
      let _ ← rawSetF bus reg_CTRLMEAS
        ((cfg_OSSTSKP <<< 5) ||| (cfg_OSSPSKP <<< 2) ||| cfg_PWRNRM)
      let _ ← rawSetF bus reg_CONFIG
        ((cfg_TSB125 <<< 5) ||| (cfg_FLTR2 <<< 2) ||| 0)
      return { port := 2
               addr := if vco then 0x77 else 0x76
               mode := cfg_PWRNRM
               prss := cfg_OSSPSKP
               temp := cfg_OSSTSKP
               sByT := cfg_TSB125
               fltr := cfg_FLTR2
               t_fine := 0
               dig_T1 := (t1 : ℚ)
               dig_T2 := (t2 : ℚ)
               dig_T3 := (t3 : ℚ)
               dig_P1 := (p1 : ℚ)
               dig_P2 := (p2 : ℚ)
               dig_P3 := (p3 : ℚ)
               dig_P4 := (p4 : ℚ)
               dig_P5 := (p5 : ℚ)
               dig_P6 := (p6 : ℚ)
               dig_P7 := (p7 : ℚ)
               dig_P8 := (p8 : ℚ)
               dig_P9 := (p9 : ℚ) }
    (body, 1)

/-! ### Specification-side formula (for the refinement claim C5) -/

/-- The temperature compensation polynomial exactly as the
specification states it (spec.md section 4.4):
`var1 = (raw/16384.0 - T1/1024.0) * T2`,
`var2 = (raw/131072.0 - T1/8192.0)^2 * T3`, `t_fine = var1 + var2`.
Written from the spec text, to be compared with `getTemperature`. -/
def tFineSpec (T1 T2 T3 : ℚ) (raw : Nat) : ℚ :=
  ((raw : ℚ) / 16384 - T1 / 1024) * T2 +
    ((raw : ℚ) / 131072 - T1 / 8192) ^ 2 * T3

/-! ### Concrete fixtures used by the claim theorems -/

/-- A device oracle answering 0 on every register. -/
def dev0 : Dev := fun _ => 0

/-- A register file holding 0 everywhere. -/
def r0 : Regs := fun _ => 0

/-- The context fresh from `createContext` on the all-zero device,
primary address. -/
def ctx0 : Ctx := (createContext dev0 false).1

/-- Device oracle for the reference-vector claim: raw temperature
reading 519888 (bytes 0x7E, 0xED, 0x0) and raw pressure reading 415148
(bytes 0x65, 0x5A, 0xC). -/
def dev6 : Dev := fun r =>
  if r = reg_TEMP0 then 0x7E
  else if r = reg_TEMP1 then 0xED
  else if r = reg_TEMP2 then 0x0
  else if r = reg_PRESS0 then 0x65
  else if r = reg_PRESS1 then 0x5A
  else if r = reg_PRESS2 then 0xC
  else 0

/-- Context holding the datasheet reference calibration, with the
signed coefficients taken as signed values. -/
def ctx6 : Ctx :=
  { port := 2
    addr := 0x76
    mode := cfg_PWRNRM
    prss := cfg_OSSPSKP
    temp := cfg_OSSTSKP
    sByT := cfg_TSB125
    fltr := cfg_FLTR2
    t_fine := 0
    dig_T1 := 27504
    dig_T2 := 26435
    dig_T3 := -1000
    dig_P1 := 36477
    dig_P2 := -10685
    dig_P3 := 3024
    dig_P4 := 2855
    dig_P5 := 140
    dig_P6 := -7
    dig_P7 := 15500
    dig_P8 := -14600
    dig_P9 := 6000 }

/-- Device oracle whose T2 calibration register pair (0x8A low,
0x8B high) holds the 16-bit two's-complement encoding of -1000,
namely low byte 0x18 and high byte 0xFC. -/
def dev7 : Dev := fun r =>
  if r = 0x8A then 0x18 else if r = 0x8B then 0xFC else 0

/-- A context whose P1 coefficient is zero, which forces the pressure
formula's `var1` to zero. -/
def ctx8 : Ctx := { ctx0 with dig_P1 := 0 }

/-- Bus on which the address-binding `ioctl` fails after `os.open`
succeeded. -/
def busBad : Bus :=
  { openOk := true
    ioctlOk := false
    readOk := fun _ => true
    dev := dev0
    writeOk := fun _ _ => true }

/-- Bus on which the very first calibration read (register 0x89) fails
after open and ioctl succeeded. -/
def busBad2 : Bus :=
  { openOk := true
    ioctlOk := true
    readOk := fun r => !(r == 0x89)
    dev := dev0
    writeOk := fun _ _ => true }

/-! ## Claim theorems -/

/-- Claim C1 (refuted on the code): the validator of `_setConfig` checks
the FULL composite register value against the field's bit-width bound,
not the new field value.  With the context fresh from `createContext`
(power mode Normal = 0b11), `setOverSampTemperature` with the in-range
field value `cfg_OSST1 = 1` builds the composite `(1 <<< 5) ||| 0b11 =
35 > 7`, so validation fails and nothing is written: the claim that
every in-range field value passes validation and is committed is false.
-/
theorem C1_validator_rejects_in_range_field :
    cfg_OSST1 ≤ 2 ^ 3 - 1 ∧
    _setConfig r0 3 false ((cfg_OSST1 <<< 5) ||| (ctx0.prss <<< 2) ||| ctx0.mode)
      = Except.error () ∧
    setOverSampTemperature ctx0 r0 cfg_OSST1 = (ctx0, r0) :=
  ⟨by decide, rfl, rfl⟩

/-- Claim C2 (refuted on the code): after a successful
`setMode ctx0 cfg_PWRFOR` the control-measurement register holds the
committed composite value 1 (mode bits = Forced = 1), yet the cached
`mode` field still holds the old Normal = 3: no setter ever updates the
in-memory configuration record. -/
theorem C2_cache_not_updated_after_commit :
    (setMode ctx0 r0 cfg_PWRFOR).2 reg_CTRLMEAS = cfg_PWRFOR ∧
    (setMode ctx0 r0 cfg_PWRFOR).1.mode = cfg_PWRNRM ∧
    (setMode ctx0 r0 cfg_PWRFOR).1.mode ≠
      ((setMode ctx0 r0 cfg_PWRFOR).2 reg_CTRLMEAS) &&& 0b11 :=
  ⟨rfl, rfl, by decide⟩

/-- Claim C3 (refuted on the code): with the out-of-range mode value 4,
the inner `_setConfig` fails (`ValueError`), but `setMode` catches every
exception and returns plainly with the state unchanged — the failure is
swallowed (printed), not propagated to the caller. -/
theorem C3_setter_swallows_range_error :
    _setConfig r0 2 false ((ctx0.temp <<< 5) ||| (ctx0.prss <<< 2) ||| 4)
      = Except.error () ∧
    setMode ctx0 r0 4 = (ctx0, r0) :=
  ⟨rfl, rfl⟩

/-- Claim C4 (refuted on the code): on a bus where the address-binding
`ioctl` fails after a successful `os.open`, and likewise on a bus where
the first calibration read fails, `createContext` propagates the failure
while leaving exactly one bus handle open — no failure path releases the
handle. -/
theorem C4_failed_create_leaks_handle :
    (createContextF busBad false).1 = Except.error () ∧
    (createContextF busBad false).2 = 1 ∧
    (createContextF busBad2 false).1 = Except.error () ∧
    (createContextF busBad2 false).2 = 1 :=
  ⟨rfl, rfl, rfl, rfl⟩

/-- Claim C5 (confirmed): `getTemperature` assembles the raw 20-bit
value as `(msb <<< 12) ||| (lsb <<< 4) ||| xlsb`, stores into the
context exactly the spec's `t_fine` polynomial evaluated at the
calibration coefficients and that raw value, and returns
`t_fine / 5120`. -/
theorem C5_temperature_matches_spec (ctx : Ctx) (dev : Dev) :
    (getTemperature ctx dev).2.t_fine =
      tFineSpec ctx.dig_T1 ctx.dig_T2 ctx.dig_T3
        (((dev reg_TEMP0) <<< 12) ||| ((dev reg_TEMP1) <<< 4) ||| (dev reg_TEMP2)) ∧
    (getTemperature ctx dev).1 = (getTemperature ctx dev).2.t_fine / 5120 := by
  constructor
  · simp only [getTemperature, tFineSpec]
    ring
  · rfl

/-- Claim C6 (confirmed): on the reference calibration vector
(T1 = 27504, T2 = 26435, T3 = -1000) and raw temperature 519888,
`getTemperature` returns about 25.08 degrees (exactly 25.082477...) and
stores `t_fine` about 128422.1 (exactly 128422.287...); the subsequent
`getPressure` on the same context with the reference pressure
coefficients and raw pressure 415148 returns about 100653.3 Pa (exactly
100653.2667...). -/
theorem C6_reference_vectors :
    |(getTemperature ctx6 dev6).1 - 2508 / 100| < 1 / 100 ∧
    |(getTemperature ctx6 dev6).2.t_fine - 1284221 / 10| < 1 / 4 ∧
    |getPressure (getTemperature ctx6 dev6).2 dev6 - 1006533 / 10| < 1 / 10 := by
  have hA : (((dev6 reg_TEMP0) <<< 12) ||| ((dev6 reg_TEMP1) <<< 4) |||
      (dev6 reg_TEMP2) : ℕ) = 519888 := by decide
  have hP : (((dev6 reg_PRESS0) <<< 12) ||| ((dev6 reg_PRESS1) <<< 4) |||
      (dev6 reg_PRESS2) : ℕ) = 415148 := by decide
  have hV : pVar1 (getTemperature ctx6 dev6).2 ≠ 0 := by
    simp only [pVar1, getTemperature, hA, ctx6]
    norm_num
  refine ⟨?_, ?_, ?_⟩
  · rw [abs_lt]
    simp only [getTemperature, hA, ctx6]
    norm_num
  · rw [abs_lt]
    simp only [getTemperature, hA, ctx6]
    norm_num
  · rw [abs_lt]
    simp only [getPressure]
    rw [if_neg hV]
    simp only [pVar1, getTemperature, hA, hP, ctx6]
    norm_num

/-- Claim C7 (refuted on the code): the assembly `(high <<< 8) ||| low`
is as specified, but no sign conversion ever happens: for the register
pair low = 0x18, high = 0xFC — the 16-bit two's-complement encoding of
-1000 — the stored T2 coefficient is the non-negative 64536, not a
negative value. -/
theorem C7_trim_never_negative :
    (_getTrim dev7 0x8A 0x8B []).1 = (0xFC <<< 8) ||| 0x18 ∧
    (createContext dev7 false).1.dig_T2 = 64536 ∧
    ¬ (createContext dev7 false).1.dig_T2 < 0 :=
  ⟨rfl, by decide, by decide⟩

/-- Claim C8 (confirmed): whenever the pressure formula's `var1` term
(`pVar1 ctx`, which depends only on the calibration store and `t_fine`)
is exactly zero, `getPressure` returns exactly 0 by the guard, for every
raw pressure reading. -/
theorem C8_zero_var1_guard (ctx : Ctx) (dev : Dev) (h : pVar1 ctx = 0) :
    getPressure ctx dev = 0 := by
  simp [getPressure, h]

/-- Witness for C8: a context with P1 = 0 forces `pVar1` to zero, and
`getPressure` on it returns 0. -/
theorem C8_zero_var1_guard_witness :
    pVar1 ctx8 = 0 ∧ getPressure ctx8 dev0 = 0 :=
  ⟨by simp [pVar1, ctx8], C8_zero_var1_guard ctx8 dev0 (by simp [pVar1, ctx8])⟩

set_option maxHeartbeats 1600000 in
/-- Claim C9 counterexample: in the trace of `createContext` on the
all-zero device, the soft-reset write does NOT precede the calibration
reads — the read of register 0x89 (first trim byte) comes first, and the
reset write only appears at position 24, after all 24 calibration
reads. -/
theorem C9_reset_not_before_trim_reads :
    ¬ ((createContext dev0 false).2.indexOf (Event.write reg_RESET 0xB6) <
       (createContext dev0 false).2.indexOf (Event.read 0x89)) := by
  decide

/-- Claim C9 as amended (the calibration reads come immediately BEFORE
the soft reset, not after): for every device and address flag, the
transaction trace of `createContext` is exactly the 24 calibration-pair
reads (each register once, MSB before LSB within a pair), then the
soft-reset write (0xB6), then the two initial configuration writes. -/
theorem C9_trim_reads_then_reset (dev : Dev) (vco : Bool) :
    (createContext dev vco).2 =
      [Event.read 0x89, Event.read 0x88, Event.read 0x8B, Event.read 0x8A,
       Event.read 0x8D, Event.read 0x8C, Event.read 0x8F, Event.read 0x8E,
       Event.read 0x91, Event.read 0x90, Event.read 0x93, Event.read 0x92,
       Event.read 0x95, Event.read 0x94, Event.read 0x97, Event.read 0x96,
       Event.read 0x99, Event.read 0x98, Event.read 0x9B, Event.read 0x9A,
       Event.read 0x9D, Event.read 0x9C, Event.read 0x9F, Event.read 0x9E,
       Event.write reg_RESET 0xB6,
       Event.write reg_CTRLMEAS 0b11,
       Event.write reg_CONFIG 0b1000100] := by
  simp [createContext, _getTrim, rawGetT]
  decide

/-- Claim C10 (confirmed): a context fresh from `createContext` has
`t_fine = 0`, and `getPressure` on it is an ordinary total evaluation
of the formula with `t_fine = 0` — no precondition guards against the
missing temperature read, so its value is indistinguishable from one
computed after a temperature read that produced `t_fine = 0`. -/
theorem C10_fresh_context_pressure (dev : Dev) (vco : Bool) (devP : Dev) :
    (createContext dev vco).1.t_fine = 0 ∧
    getPressure (createContext dev vco).1 devP =
      getPressure { (createContext dev vco).1 with t_fine := 0 } devP :=
  ⟨rfl, rfl⟩
